import Mathlib

/-!
Shallow embedding of the Slack Block Kit automation app
(`src/block_kit_components.py`, `src/app.py`).

Blocks are modelled as a JSON-like inductive `J`; Python dicts built by the
block builders become `J.obj` association lists whose entry order mirrors the
Python insertion order.  Python truthiness (`if value:`) is modelled by
`J.truthy` / emptiness tests on strings.  Handlers become pure functions from
an explicit `Store` (plus the ambient inputs: acting user, generated id token,
current timestamp strings) to the new `Store` and the outbound calls made.
-/

namespace SlackApp

/-- JSON-like values: the shape of Slack Block Kit payloads. -/
inductive J where
  | str : String → J
  | bool : Bool → J
  | arr : List J → J
  | obj : List (String × J) → J

/-- Python truthiness of a JSON value (`if value:`):
empty string, `False`, empty list and empty dict are falsy. -/
def J.truthy : J → Bool
  | .str s => s ≠ ""
  | .bool b => b
  | .arr l => ¬ l.isEmpty
  | .obj l => ¬ l.isEmpty

/-- Whether an object value has a key (non-objects have no keys). -/
def J.hasKey : J → String → Bool
  | .obj fields, k => fields.any (fun kv => kv.1 == k)
  | _, _ => false

/-- Look a key up in an object value. -/
def J.getKey : J → String → Option J
  | .obj fields, k => fields.lookup k
  | _, _ => none

/-- Model of `create_header_block` from `block_kit_components.py`. -/
def create_header_block (text : String) : J :=
  J.obj [("type", J.str "header"),
         ("text", J.obj [("type", J.str "plain_text"),
                         ("text", J.str text),
                         ("emoji", J.bool true)])]

/-- Model of `create_section_block`: section with optional accessory
(`if accessory:` — Python truthiness, so a falsy accessory is dropped). -/
def create_section_block (text : String) (accessory : Option J := none) : J :=
  J.obj ([("type", J.str "section"),
          ("text", J.obj [("type", J.str "mrkdwn"), ("text", J.str text)])]
    ++ (match accessory with
        | some a => if a.truthy then [("accessory", a)] else []
        | none => []))

/-- Model of `create_button_block`: button with optional value/style/url, each added
only when truthy (non-empty). -/
def create_button_block (text : String) (action_id : String)
    (value : Option String := none) (style : Option String := none)
    (url : Option String := none) : J :=
  J.obj ([("type", J.str "button"),
          ("text", J.obj [("type", J.str "plain_text"), ("text", J.str text)]),
          ("action_id", J.str action_id)]
    ++ (match value with
        | some v => if v ≠ "" then [("value", J.str v)] else []
        | none => [])
    ++ (match style with
        | some s => if s ≠ "" then [("style", J.str s)] else []
        | none => [])
    ++ (match url with
        | some u => if u ≠ "" then [("url", J.str u)] else []
        | none => []))

/-- Model of `create_actions_block`. -/
def create_actions_block (buttons : List J) : J :=
  J.obj [("type", J.str "actions"), ("elements", J.arr buttons)]

/-- Model of `create_divider_block`. -/
def create_divider_block : J :=
  J.obj [("type", J.str "divider")]

/-- Model of `create_context_block`. -/
def create_context_block (elements : List J) : J :=
  J.obj [("type", J.str "context"), ("elements", J.arr elements)]

/-- Model of `create_input_block`: input block with optional hint and optional flag. -/
def create_input_block (block_id : String) (label : String) (element : J)
    (hint : Option String := none) (optional : Bool := false) : J :=
  J.obj ([("type", J.str "input"),
          ("block_id", J.str block_id),
          ("label", J.obj [("type", J.str "plain_text"), ("text", J.str label)]),
          ("element", element)]
    ++ (match hint with
        | some h => if h ≠ "" then
            [("hint", J.obj [("type", J.str "plain_text"), ("text", J.str h)])]
          else []
        | none => [])
    ++ (if optional then [("optional", J.bool true)] else []))

/-- Model of `create_text_input`: text input with optional placeholder, initial value
and multiline flag. -/
def create_text_input (action_id : String)
    (placeholder : Option String := none) (initial_value : Option String := none)
    (multiline : Bool := false) : J :=
  J.obj ([("type", J.str "plain_text_input"),
          ("action_id", J.str action_id)]
    ++ (match placeholder with
        | some p => if p ≠ "" then
            [("placeholder", J.obj [("type", J.str "plain_text"), ("text", J.str p)])]
          else []
        | none => [])
    ++ (match initial_value with
        | some v => if v ≠ "" then [("initial_value", J.str v)] else []
        | none => [])
    ++ (if multiline then [("multiline", J.bool true)] else []))

/-- Model of `create_select_menu`: static select; the placeholder is always included. -/
def create_select_menu (action_id : String) (options : List (String × String))
    (placeholder : String := "Select an option") : J :=
  J.obj [("type", J.str "static_select"),
         ("action_id", J.str action_id),
         ("placeholder", J.obj [("type", J.str "plain_text"),
                                ("text", J.str placeholder)]),
         ("options", J.arr (options.map (fun opt =>
           J.obj [("text", J.obj [("type", J.str "plain_text"),
                                  ("text", J.str opt.1)]),
                  ("value", J.str opt.2)])))]

/-- Model of `create_datepicker`: datepicker with optional initial date. -/
def create_datepicker (action_id : String)
    (initial_date : Option String := none) : J :=
  J.obj ([("type", J.str "datepicker"),
          ("action_id", J.str action_id),
          ("placeholder", J.obj [("type", J.str "plain_text"),
                                 ("text", J.str "Select a date")])]
    ++ (match initial_date with
        | some d => if d ≠ "" then [("initial_date", J.str d)] else []
        | none => []))

/-- A workflow step as passed to `create_workflow_message`: a dict with a
required `name` and optional `description` / `status` keys (read via `.get`). -/
structure Step where
  name : String
  description : Option String := none
  status : Option String := none

/-- The per-step rendering loop of `create_workflow_message`
(`for i, step in enumerate(steps, 1)`), carrying the 1-based index. -/
def renderWorkflowSteps : Nat → List Step → List J
  | _, [] => []
  | i, step :: rest =>
      create_section_block
        ((if step.status == some "completed" then "✅" else "⏳")
          ++ " *Step " ++ toString i ++ ":* " ++ step.name
          ++ "\n_" ++ step.description.getD "" ++ "_")
      :: renderWorkflowSteps (i + 1) rest

/-- Model of `create_workflow_message` from `block_kit_components.py`. -/
def create_workflow_message (title : String) (status : String)
    (description : String) (steps : List Step) : List J :=
  [create_header_block ("🔄 " ++ title),
   create_section_block ("*Status:* " ++ status ++ "\n*Description:* " ++ description),
   create_divider_block,
   create_header_block "Workflow Steps"]
  ++ renderWorkflowSteps 1 steps

/-- Model of `create_task_modal` from `block_kit_components.py`. -/
def create_task_modal : J :=
  J.obj [("type", J.str "modal"),
         ("callback_id", J.str "create_task_modal"),
         ("title", J.obj [("type", J.str "plain_text"), ("text", J.str "Create Task")]),
         ("submit", J.obj [("type", J.str "plain_text"), ("text", J.str "Create")]),
         ("close", J.obj [("type", J.str "plain_text"), ("text", J.str "Cancel")]),
         ("blocks", J.arr
           [create_input_block "task_title" "Task Title"
              (create_text_input "title_input" (some "Enter task title")),
            create_input_block "task_description" "Description"
              (create_text_input "description_input" (some "Enter task description") none true)
              none true,
            create_input_block "task_priority" "Priority"
              (create_select_menu "priority_select"
                [("High", "high"), ("Medium", "medium"), ("Low", "low")]
                "Select priority"),
            create_input_block "task_due_date" "Due Date"
              (create_datepicker "due_date_picker")
              none true])]

/-- Model of `create_approval_message` from `block_kit_components.py`. -/
def create_approval_message (requester : String) (request_type : String)
    (details : String) (request_id : String) : List J :=
  [create_header_block "📋 Approval Request",
   create_section_block
     ("*Requester:* " ++ requester ++ "\n*Type:* " ++ request_type
       ++ "\n*Details:* " ++ details),
   create_divider_block,
   create_actions_block
     [create_button_block "✅ Approve" "approve_request" (some request_id) (some "primary"),
      create_button_block "❌ Reject" "reject_request" (some request_id) (some "danger"),
      create_button_block "ℹ️ View Details" "view_details" (some request_id)],
   create_context_block
     [J.obj [("type", J.str "mrkdwn"),
             ("text", J.str ("Request ID: `" ++ request_id ++ "`"))]]]

/-- Model of `create_dashboard_home_tab` from `block_kit_components.py`. -/
def create_dashboard_home_tab : J :=
  J.obj [("type", J.str "home"),
         ("blocks", J.arr
           [create_header_block "🏠 Automation Dashboard",
            create_section_block
              "Welcome to your automation dashboard! Use the buttons below to manage your workflows.",
            create_divider_block,
            create_section_block "*Quick Actions*",
            create_actions_block
              [create_button_block "📝 Create Task" "open_task_modal",
               create_button_block "🔄 View Workflows" "view_workflows",
               create_button_block "📊 View Reports" "view_reports"],
            create_divider_block,
            create_section_block "*Recent Activity*",
            create_context_block
              [J.obj [("type", J.str "mrkdwn"), ("text", J.str "No recent activity")]]])]

/-- A task entity as stored by `handle_task_modal_submit` in `app.py`. -/
structure Task where
  id : String
  title : String
  description : String
  priority : String
  due_date : String
  created_by : String
  created_at : String
  status : String
deriving DecidableEq

/-- An approval entity as stored by `send_approval_example` in `app.py`.
The `approved_by`/`approved_at`/`rejected_by`/`rejected_at` dict keys are
absent until a handler sets them, hence `Option` with default `none`. -/
structure Approval where
  id : String
  requester : String
  type : String
  details : String
  status : String
  created_at : String
  approved_by : Option String := none
  approved_at : Option String := none
  rejected_by : Option String := none
  rejected_at : Option String := none
deriving DecidableEq

/-- A workflow entity: the collection is declared in `automation_store` but
never populated by any in-scope handler, so only its identity matters. -/
structure Workflow where
  id : String
deriving DecidableEq

/-- The in-memory `automation_store` of `app.py`: three ordered collections. -/
structure Store where
  tasks : List Task := []
  workflows : List Workflow := []
  approvals : List Approval := []
deriving DecidableEq

/-- One outbound Slack client call made by a handler. -/
inductive Outbound where
  | postText (channel : String) (text : String)
  | postBlocks (channel : String) (blocks : List J) (fallback : String)
  | updateBlocks (channel : String) (ts : String) (blocks : List J) (fallback : String)
  | publishView (user : String) (view : J)
  | openView (trigger : String) (view : J)

/-- ASCII lowercasing, modelling Python `str.lower()` on the app's inputs. -/
def strLower (s : String) : String := (s.toList.map Char.toLower).asString

/-- Python `needle in hay` substring test. -/
def containsSub (hay needle : String) : Bool :=
  (List.range (hay.toList.length + 1)).any
    (fun i => needle.toList.isPrefixOf (hay.toList.drop i))

/-- The fixed example step list of `send_workflow_example` in `app.py`. -/
def exampleWorkflowSteps : List Step :=
  [{ name := "Data Collection", description := some "Collecting data from sources",
     status := some "completed" },
   { name := "Data Processing", description := some "Processing collected data",
     status := some "completed" },
   { name := "Report Generation", description := some "Generating final report",
     status := some "in_progress" },
   { name := "Notification", description := some "Sending notifications",
     status := some "pending" }]

/-- Model of `send_workflow_example` from `app.py`: posts the fixed example workflow. -/
def send_workflow_example (channel : String) : Outbound :=
  .postBlocks channel
    (create_workflow_message "Daily Report Automation" "In Progress"
      "Automated daily report generation workflow" exampleWorkflowSteps)
    "Workflow status"

/-- Model of `send_task_example` from `app.py`: posts the task-creation prompt. -/
def send_task_example (channel : String) : Outbound :=
  .postBlocks channel
    [create_header_block "📝 Task Management",
     create_section_block
       "Click the button below to create a new task using our interactive modal.",
     create_actions_block [create_button_block "Create Task" "open_task_modal"]]
    "Task management"

/-- Model of `send_approval_example` from `app.py`: appends a new pending `Approval`
(id generated from the current timestamp `ts`) and posts the approval card. -/
def send_approval_example (s : Store) (channel user_id ts nowIso : String) :
    Store × Outbound :=
  let request_id := "req_" ++ ts
  let approval : Approval :=
    { id := request_id, requester := user_id, type := "Budget Approval",
      details := "Requesting approval for Q4 marketing budget",
      status := "pending", created_at := nowIso }
  ({ s with approvals := s.approvals ++ [approval] },
   .postBlocks channel
     (create_approval_message ("<@" ++ user_id ++ ">") "Budget Approval"
       "Requesting approval for Q4 marketing budget" request_id)
     "Approval request")

/-- An inbound `message` event as read by `handle_message`:
`subtype` and `text` via `.get` (optional), `channel` and `user` via `[]`. -/
structure MessageEvent where
  subtype : Option String := none
  text : Option String := none
  channel : String
  user : String

/-- Model of `handle_message` from `app.py`: bot messages are ignored; otherwise the
lowercased text is matched by substring in precedence order
hello/hi → workflow → task → approval; unmatched text does nothing.
`ts`/`nowIso` stand for the ambient `datetime.now()` readings used when the
approval branch generates an id and a creation time. -/
def handle_message (s : Store) (e : MessageEvent) (ts nowIso : String) :
    Store × List Outbound :=
  if e.subtype == some "bot_message" then (s, [])
  else
    let text := strLower (e.text.getD "")
    if containsSub text "hello" || containsSub text "hi" then
      (s, [.postText e.channel
        "Hello! 👋 Use `/automation` to get started with automations."])
    else if containsSub text "workflow" then
      (s, [send_workflow_example e.channel])
    else if containsSub text "task" then
      (s, [send_task_example e.channel])
    else if containsSub text "approval" then
      let r := send_approval_example s e.channel e.user ts nowIso
      (r.1, [r.2])
    else
      (s, [])

/-- The submitted form state of the task modal as read by
`handle_task_modal_submit`: title and priority via required indexing,
description and due date via chained `.get` defaulting to `""`. -/
structure TaskModalState where
  title : String
  description : Option String := none
  priority : String
  due_date : Option String := none

/-- Model of `handle_task_modal_submit` from `app.py`: appends one `Task`
(status "pending", id generated from `ts`) and DMs a confirmation
to the submitting user. -/
def handle_task_modal_submit (s : Store) (vs : TaskModalState)
    (user_id ts nowIso : String) : Store × Outbound :=
  let task_title := vs.title
  let task_description := vs.description.getD ""
  let task_priority := vs.priority
  let task_due_date := vs.due_date.getD ""
  let task : Task :=
    { id := "task_" ++ ts, title := task_title, description := task_description,
      priority := task_priority, due_date := task_due_date,
      created_by := user_id, created_at := nowIso, status := "pending" }
  ({ s with tasks := s.tasks ++ [task] },
   .postBlocks user_id
     [create_header_block "✅ Task Created",
      create_section_block
        ("*Title:* " ++ task_title
          ++ "\n*Priority:* " ++ task_priority
          ++ "\n*Due Date:* " ++ (if task_due_date ≠ "" then task_due_date else "Not set")
          ++ "\n*Status:* Pending")]
     ("Task created: " ++ task_title))

/-- The `for ... if ...: mutate; break` pattern of `handle_approve` /
`handle_reject`: apply `f` to the first element satisfying `p`, leave the
rest untouched; no-op when nothing matches. -/
def updateFirst (p : α → Bool) (f : α → α) : List α → List α
  | [] => []
  | x :: xs => if p x then f x :: xs else x :: updateFirst p f xs

/-- Model of `handle_approve` from `app.py`: sets status/approved_by/approved_at on the
first approval whose id equals the action's carried value, then edits the
original message in place.  `nowIso`/`nowFmt` are the ambient time readings. -/
def handle_approve (s : Store) (request_id user_id channel_id msg_ts : String)
    (nowIso nowFmt : String) : Store × Outbound :=
  let approvals := updateFirst (fun a => a.id == request_id)
    (fun a => { a with status := "approved", approved_by := some user_id,
                       approved_at := some nowIso })
    s.approvals
  ({ s with approvals := approvals },
   .updateBlocks channel_id msg_ts
     [create_header_block "✅ Request Approved",
      create_section_block
        ("Request `" ++ request_id ++ "` has been approved by <@" ++ user_id ++ ">"),
      create_context_block
        [J.obj [("type", J.str "mrkdwn"), ("text", J.str ("Approved at: " ++ nowFmt))]]]
     "Request approved")

/-- Model of `handle_reject` from `app.py`: sets status/rejected_by/rejected_at on the
first approval whose id equals the action's carried value, then edits the
original message in place. -/
def handle_reject (s : Store) (request_id user_id channel_id msg_ts : String)
    (nowIso nowFmt : String) : Store × Outbound :=
  let approvals := updateFirst (fun a => a.id == request_id)
    (fun a => { a with status := "rejected", rejected_by := some user_id,
                       rejected_at := some nowIso })
    s.approvals
  ({ s with approvals := approvals },
   .updateBlocks channel_id msg_ts
     [create_header_block "❌ Request Rejected",
      create_section_block
        ("Request `" ++ request_id ++ "` has been rejected by <@" ++ user_id ++ ">"),
      create_context_block
        [J.obj [("type", J.str "mrkdwn"), ("text", J.str ("Rejected at: " ++ nowFmt))]]]
     "Request rejected")

/-- One bullet line of the pending-task reminder list in `check_pending_tasks`. -/
def taskReminderLine (t : Task) : String :=
  "• " ++ t.title ++ " (Priority: " ++ t.priority ++ ")"

/-- Model of `check_pending_tasks` from `app.py` (the hourly reminder job): reads the
store only; sends nothing when no task is pending, otherwise sends one
reminder listing the first 5 pending tasks with the true total in the text. -/
def check_pending_tasks (s : Store) (channel_id : String) : Option Outbound :=
  let pending_tasks := s.tasks.filter (fun t => t.status == "pending")
  if pending_tasks.isEmpty then none
  else
    let task_list := String.intercalate "\n" ((pending_tasks.take 5).map taskReminderLine)
    some (.postBlocks channel_id
      [create_header_block "⏰ Pending Tasks Reminder",
       create_section_block
         ("You have " ++ toString pending_tasks.length ++ " pending task(s):\n\n" ++ task_list),
       create_actions_block [create_button_block "View All Tasks" "view_tasks"]]
      "Pending tasks reminder")

/-- Model of `send_daily_report` from `app.py` (the daily job): reads the store only
and sends the summary counts. -/
def send_daily_report (s : Store) (channel_id date : String) : Outbound :=
  .postBlocks channel_id
    [create_header_block "📊 Daily Automation Report",
     create_section_block
       ("*Date:* " ++ date
         ++ "\n*Total Tasks:* " ++ toString s.tasks.length
         ++ "\n*Pending Approvals:* "
         ++ toString (s.approvals.filter (fun a => a.status == "pending")).length
         ++ "\n*Active Workflows:* " ++ toString s.workflows.length),
     create_divider_block,
     create_section_block "*Summary*\nAll systems are running smoothly! ✅"]
    "Daily automation report"


/-! ## Helper lemmas: key presence in builders with optional fields -/

lemma section_hasKey_accessory (text : String) (acc : Option J) :
    (create_section_block text acc).hasKey "accessory" = acc.any J.truthy := by
  cases acc <;> simp [create_section_block, J.hasKey, Option.any] <;>
    split_ifs <;> simp_all

lemma button_hasKey_value (t a : String) (v s u : Option String) :
    (create_button_block t a v s u).hasKey "value" = v.any (fun x => x != "") := by
  cases v <;> cases s <;> cases u <;>
    simp [create_button_block, J.hasKey, Option.any] <;> split_ifs <;> simp_all

lemma button_hasKey_style (t a : String) (v s u : Option String) :
    (create_button_block t a v s u).hasKey "style" = s.any (fun x => x != "") := by
  cases v <;> cases s <;> cases u <;>
    simp [create_button_block, J.hasKey, Option.any] <;> split_ifs <;> simp_all

lemma button_hasKey_url (t a : String) (v s u : Option String) :
    (create_button_block t a v s u).hasKey "url" = u.any (fun x => x != "") := by
  cases v <;> cases s <;> cases u <;>
    simp [create_button_block, J.hasKey, Option.any] <;> split_ifs <;> simp_all

lemma input_hasKey_hint (bid lbl : String) (el : J) (hint : Option String) (opt : Bool) :
    (create_input_block bid lbl el hint opt).hasKey "hint" = hint.any (fun x => x != "") := by
  cases hint <;> cases opt <;>
    simp [create_input_block, J.hasKey, Option.any] <;> split_ifs <;> simp_all

lemma input_hasKey_optional (bid lbl : String) (el : J) (hint : Option String) (opt : Bool) :
    (create_input_block bid lbl el hint opt).hasKey "optional" = opt := by
  cases hint <;> cases opt <;>
    simp [create_input_block, J.hasKey, Option.any] <;> split_ifs <;> simp_all

lemma text_input_hasKey_placeholder (a : String) (ph iv : Option String) (ml : Bool) :
    (create_text_input a ph iv ml).hasKey "placeholder" = ph.any (fun x => x != "") := by
  cases ph <;> cases iv <;> cases ml <;>
    simp [create_text_input, J.hasKey, Option.any] <;> split_ifs <;> simp_all

lemma text_input_hasKey_initial_value (a : String) (ph iv : Option String) (ml : Bool) :
    (create_text_input a ph iv ml).hasKey "initial_value" = iv.any (fun x => x != "") := by
  cases ph <;> cases iv <;> cases ml <;>
    simp [create_text_input, J.hasKey, Option.any] <;> split_ifs <;> simp_all

lemma text_input_hasKey_multiline (a : String) (ph iv : Option String) (ml : Bool) :
    (create_text_input a ph iv ml).hasKey "multiline" = ml := by
  cases ph <;> cases iv <;> cases ml <;>
    simp [create_text_input, J.hasKey, Option.any] <;> split_ifs <;> simp_all

lemma datepicker_hasKey_initial_date (a : String) (idate : Option String) :
    (create_datepicker a idate).hasKey "initial_date" = idate.any (fun x => x != "") := by
  cases idate <;>
    simp [create_datepicker, J.hasKey, Option.any] <;> split_ifs <;> simp_all


/-- C4: For every Block Builder and every combination of its optional
arguments, an optional field not supplied with a non-empty (truthy) value
produces no key at all in the returned structure, and a supplied truthy value
produces the key: key presence equals exactly the truthiness of the argument,
so absent optionals never appear as empty or null keys.  The builders with
optional fields are section (accessory), button (value/style/url), input
(hint/optional), text input (placeholder/initial value/multiline) and
datepicker (initial date); header, actions, divider, context and select take
no optional fields.  I/O-freedom and absence of mutation hold by construction:
each builder is embedded as a pure function on `J`. -/
theorem builders_omit_unsupplied_optional_fields :
    ∀ (text a bid lbl : String) (el : J) (acc : Option J)
      (v s u hint ph iv idate : Option String) (opt ml : Bool),
      (create_section_block text acc).hasKey "accessory" = acc.any J.truthy
    ∧ (create_button_block text a v s u).hasKey "value" = v.any (fun x => x != "")
    ∧ (create_button_block text a v s u).hasKey "style" = s.any (fun x => x != "")
    ∧ (create_button_block text a v s u).hasKey "url" = u.any (fun x => x != "")
    ∧ (create_input_block bid lbl el hint opt).hasKey "hint" = hint.any (fun x => x != "")
    ∧ (create_input_block bid lbl el hint opt).hasKey "optional" = opt
    ∧ (create_text_input a ph iv ml).hasKey "placeholder" = ph.any (fun x => x != "")
    ∧ (create_text_input a ph iv ml).hasKey "initial_value" = iv.any (fun x => x != "")
    ∧ (create_text_input a ph iv ml).hasKey "multiline" = ml
    ∧ (create_datepicker a idate).hasKey "initial_date" = idate.any (fun x => x != "") := by
  intro text a bid lbl el acc v s u hint ph iv idate opt ml
  exact ⟨section_hasKey_accessory text acc,
         button_hasKey_value text a v s u,
         button_hasKey_style text a v s u,
         button_hasKey_url text a v s u,
         input_hasKey_hint bid lbl el hint opt,
         input_hasKey_optional bid lbl el hint opt,
         text_input_hasKey_placeholder a ph iv ml,
         text_input_hasKey_initial_value a ph iv ml,
         text_input_hasKey_multiline a ph iv ml,
         datepicker_hasKey_initial_date a idate⟩


/-! ## Workflow message structure -/

lemma renderWorkflowSteps_length (n : Nat) (steps : List Step) :
    (renderWorkflowSteps n steps).length = steps.length := by
  induction steps generalizing n with
  | nil => rfl
  | cons hd tl ih => simp [renderWorkflowSteps, ih]

lemma renderWorkflowSteps_getElem (n i : Nat) (steps : List Step) (step : Step)
    (h : steps[i]? = some step) :
    (renderWorkflowSteps n steps)[i]? =
      some (create_section_block
        ((if step.status == some "completed" then "✅" else "⏳")
          ++ " *Step " ++ toString (n + i) ++ ":* " ++ step.name
          ++ "\n_" ++ step.description.getD "" ++ "_")) := by
  induction steps generalizing n i with
  | nil => simp at h
  | cons hd tl ih =>
    cases i with
    | zero =>
      simp at h
      subst h
      simp [renderWorkflowSteps]
    | succ j =>
      simp at h
      have hj := ih (n + 1) j h
      have harr : n + 1 + j = n + (j + 1) := by omega
      rw [harr] at hj
      simpa [renderWorkflowSteps] using hj

/-- C5: `create_workflow_message` returns the header, the status/description
section, a divider and the "Workflow Steps" header, followed by exactly one
section per step in input order; a step whose status is exactly "completed"
gets the ✅ glyph and every other status (including absent) gets ⏳, and each
step text carries the 1-based index of its input position. -/
theorem workflow_message_structure (title status description : String)
    (steps : List Step) :
    (create_workflow_message title status description steps).length = 4 + steps.length
  ∧ (create_workflow_message title status description steps)[0]? =
      some (create_header_block ("🔄 " ++ title))
  ∧ (create_workflow_message title status description steps)[1]? =
      some (create_section_block
        ("*Status:* " ++ status ++ "\n*Description:* " ++ description))
  ∧ (create_workflow_message title status description steps)[2]? =
      some create_divider_block
  ∧ (create_workflow_message title status description steps)[3]? =
      some (create_header_block "Workflow Steps")
  ∧ ∀ i step, steps[i]? = some step →
      (create_workflow_message title status description steps)[4 + i]? =
        some (create_section_block
          ((if step.status == some "completed" then "✅" else "⏳")
            ++ " *Step " ++ toString (i + 1) ++ ":* " ++ step.name
            ++ "\n_" ++ step.description.getD "" ++ "_")) := by
  refine ⟨?_, by simp [create_workflow_message], by simp [create_workflow_message],
    by simp [create_workflow_message], by simp [create_workflow_message], ?_⟩
  · simp [create_workflow_message, renderWorkflowSteps_length]
    omega
  · intro i step h
    have hr := renderWorkflowSteps_getElem 1 i steps step h
    have harr : (1 : Nat) + i = i + 1 := by omega
    rw [harr] at hr
    have hi : i < steps.length := by
      rcases List.getElem?_eq_some_iff.mp h with ⟨hlt, -⟩
      exact hlt
    simp only [create_workflow_message]
    rw [List.getElem?_append_right (by simp)]
    simpa using hr

/-- Witness for C5 at a concrete two-step input: the second step (input
position 1, rendered index 2) is completed and gets the ✅ glyph. -/
theorem workflow_message_structure_witness :
    (create_workflow_message "W" "S" "D"
      [{ name := "a" }, { name := "b", status := some "completed" }])[5]? =
      some (create_section_block "✅ *Step 2:* b\n__") := by
  have h := (workflow_message_structure "W" "S" "D"
    [{ name := "a" }, { name := "b", status := some "completed" }]).2.2.2.2.2
      1 { name := "b", status := some "completed" } rfl
  simpa using h


/-! ## Approval message structure -/

/-- C6 counterexample: with an empty request id, the approve button in the
sent approval message carries no "value" key at all (the builder drops falsy
values), so its value is not the request id as the claim states for every id. -/
theorem approval_message_empty_id_counterexample :
    (create_approval_message "r" "t" "d" "")[3]? =
      some (create_actions_block
        [create_button_block "✅ Approve" "approve_request" (some "") (some "primary"),
         create_button_block "❌ Reject" "reject_request" (some "") (some "danger"),
         create_button_block "ℹ️ View Details" "view_details" (some "")])
  ∧ (create_button_block "✅ Approve" "approve_request" (some "") (some "primary")).hasKey
      "value" = false
  ∧ (create_button_block "✅ Approve" "approve_request" (some "") (some "primary")).getKey
      "value" = none := by
  refine ⟨rfl, rfl, rfl⟩

/-- C6 (amended to non-empty request ids): `create_approval_message` yields a
5-block document whose actions block holds exactly three buttons in fixed
order — approve (primary style, value = request id), reject (danger style,
value = request id), view-details (no style key, value = request id) —
followed by a context block whose text contains the request id verbatim. -/
theorem approval_message_actions (requester request_type details request_id : String)
    (h : request_id ≠ "") :
    (create_approval_message requester request_type details request_id).length = 5
  ∧ (∃ b1 b2 b3,
      (create_approval_message requester request_type details request_id)[3]? =
        some (create_actions_block [b1, b2, b3])
    ∧ b1.getKey "action_id" = some (J.str "approve_request")
    ∧ b1.getKey "style" = some (J.str "primary")
    ∧ b1.getKey "value" = some (J.str request_id)
    ∧ b2.getKey "action_id" = some (J.str "reject_request")
    ∧ b2.getKey "style" = some (J.str "danger")
    ∧ b2.getKey "value" = some (J.str request_id)
    ∧ b3.getKey "action_id" = some (J.str "view_details")
    ∧ b3.hasKey "style" = false
    ∧ b3.getKey "value" = some (J.str request_id))
  ∧ (∃ pre post,
      (create_approval_message requester request_type details request_id)[4]? =
        some (create_context_block
          [J.obj [("type", J.str "mrkdwn"),
                  ("text", J.str (pre ++ request_id ++ post))]])) := by
  refine ⟨rfl, ⟨_, _, _, rfl, ?_, ?_, ?_, ?_, ?_, ?_, ?_, ?_, ?_⟩,
    ⟨"Request ID: `", "`", rfl⟩⟩
  all_goals
    simp [create_button_block, J.getKey, J.hasKey, List.lookup, h]

/-- Witness for C6 at a concrete non-empty request id. -/
theorem approval_message_actions_witness :
    (create_approval_message "r" "t" "d" "req_1").length = 5 :=
  (approval_message_actions "r" "t" "d" "req_1" (by decide)).1


/-! ## Task modal submission -/

/-- The text a mrkdwn section displays: bold/italic markers (`*`, `_`)
are formatting, not content. -/
def stripMarkdown (s : String) : String :=
  (s.data.filter (fun c => !(c == '*' || c == '_'))).asString

lemma stripMarkdown_append (a b : String) :
    stripMarkdown (a ++ b) = stripMarkdown a ++ stripMarkdown b := by
  apply String.ext
  simp [stripMarkdown, String.data_append, List.filter_append, List.asString]

/-- C1: a task-modal submission that supplies a title and a priority but
omits the description and due-date fields appends exactly one Task with
description "", due_date "", status "pending" (title, priority and creator
from the submission), leaves the other collections unchanged, and the
confirmation document sent to the submitting user displays the text
"Due Date: Not set" (in its mrkdwn source the line reads
"*Due Date:* Not set"; the displayed text strips the bold markers). -/
theorem task_modal_submit_defaults (s : Store) (vs : TaskModalState)
    (user_id ts nowIso : String)
    (hdesc : vs.description = none) (hdue : vs.due_date = none) :
    (handle_task_modal_submit s vs user_id ts nowIso).1.tasks =
      s.tasks ++ [{ id := "task_" ++ ts, title := vs.title, description := "",
                    priority := vs.priority, due_date := "", created_by := user_id,
                    created_at := nowIso, status := "pending" }]
  ∧ (handle_task_modal_submit s vs user_id ts nowIso).1.workflows = s.workflows
  ∧ (handle_task_modal_submit s vs user_id ts nowIso).1.approvals = s.approvals
  ∧ ∃ text pre post,
      (handle_task_modal_submit s vs user_id ts nowIso).2 =
        .postBlocks user_id
          [create_header_block "✅ Task Created", create_section_block text]
          ("Task created: " ++ vs.title)
    ∧ stripMarkdown text = pre ++ "Due Date: Not set" ++ post := by
  refine ⟨?_, ?_, ?_, ?_⟩
  · simp [handle_task_modal_submit, hdesc, hdue]
  · simp [handle_task_modal_submit]
  · simp [handle_task_modal_submit]
  · refine ⟨"*Title:* " ++ vs.title ++ "\n*Priority:* " ++ vs.priority
      ++ "\n*Due Date:* " ++ "Not set" ++ "\n*Status:* Pending",
      stripMarkdown ("*Title:* " ++ vs.title ++ "\n*Priority:* " ++ vs.priority) ++ "\n",
      "\nStatus: Pending", ?_, ?_⟩
    · simp [handle_task_modal_submit, hdue]
    · simp only [stripMarkdown_append]
      have h1 : stripMarkdown "\n*Due Date:* " = "\nDue Date: " := by decide
      have h2 : stripMarkdown "Not set" = "Not set" := by decide
      have h3 : stripMarkdown "\n*Status:* Pending" = "\nStatus: Pending" := by decide
      rw [h1, h2, h3]
      apply String.ext
      simp [String.data_append, List.append_assoc]

/-- Witness for C1: the spec's own example — title "Ship report", priority
"high", no description, no due date. -/
theorem task_modal_submit_defaults_witness :
    (handle_task_modal_submit ⟨[], [], []⟩
      { title := "Ship report", priority := "high" } "U1" "123" "iso").1.tasks =
      [{ id := "task_123", title := "Ship report", description := "",
         priority := "high", due_date := "", created_by := "U1",
         created_at := "iso", status := "pending" }] := by
  have h := (task_modal_submit_defaults ⟨[], [], []⟩
    { title := "Ship report", priority := "high" } "U1" "123" "iso" rfl rfl).1
  simpa using h


/-! ## find-and-update lemmas -/

lemma updateFirst_no_match (p : α → Bool) (f : α → α) (l : List α)
    (h : ∀ x ∈ l, p x = false) : updateFirst p f l = l := by
  induction l with
  | nil => rfl
  | cons x xs ih =>
    simp [updateFirst, h x (List.mem_cons_self x xs)]
    exact ih (fun y hy => h y (List.mem_cons_of_mem x hy))

lemma updateFirst_first_match (p : α → Bool) (f : α → α) (pre : List α) (x : α)
    (post : List α) (hpre : ∀ y ∈ pre, p y = false) (hx : p x = true) :
    updateFirst p f (pre ++ x :: post) = pre ++ f x :: post := by
  induction pre with
  | nil => simp [updateFirst, hx]
  | cons y ys ih =>
    simp [updateFirst, hpre y (List.mem_cons_self y ys)]
    exact ih (fun z hz => hpre z (List.mem_cons_of_mem y hz))

lemma updateFirst_length (p : α → Bool) (f : α → α) (l : List α) :
    (updateFirst p f l).length = l.length := by
  induction l with
  | nil => rfl
  | cons x xs ih => simp [updateFirst]; split <;> simp [ih]

lemma updateFirst_getElem (p : α → Bool) (f : α → α) (l : List α) (i : Nat)
    (a a' : α) (ha : l[i]? = some a) (ha' : (updateFirst p f l)[i]? = some a') :
    a' = a ∨ a' = f a := by
  induction l generalizing i with
  | nil => simp at ha
  | cons x xs ih =>
    by_cases hp : p x = true
    · simp only [updateFirst, if_pos hp] at ha'
      cases i with
      | zero =>
        simp at ha ha'
        subst ha
        right
        exact ha'.symm
      | succ j =>
        simp at ha ha'
        left
        rw [ha] at ha'
        exact (Option.some.injEq _ _ ▸ ha').symm
    · simp only [updateFirst, if_neg hp] at ha'
      cases i with
      | zero =>
        simp at ha ha'
        left
        rw [← ha, ← ha']
      | succ j =>
        simp at ha ha'
        exact ih j ha ha'

/-- C3: an approve or reject action whose carried request id matches no
Approval leaves the whole store exactly as it was (silent no-op, no error —
the handlers are total functions); when the id matches, the mutation hits
the first matching Approval only, leaving everything after it untouched even
if further approvals carry the same id. -/
theorem approve_reject_unmatched_noop (s : Store)
    (rid u ch mts iso fmt : String) :
    ((∀ a ∈ s.approvals, a.id ≠ rid) →
        (handle_approve s rid u ch mts iso fmt).1 = s
      ∧ (handle_reject s rid u ch mts iso fmt).1 = s)
  ∧ (∀ pre x post, s.approvals = pre ++ x :: post →
      (∀ y ∈ pre, y.id ≠ rid) → x.id = rid →
        (handle_approve s rid u ch mts iso fmt).1.approvals =
          pre ++ { x with status := "approved", approved_by := some u,
                          approved_at := some iso } :: post
      ∧ (handle_reject s rid u ch mts iso fmt).1.approvals =
          pre ++ { x with status := "rejected", rejected_by := some u,
                          rejected_at := some iso } :: post) := by
  constructor
  · intro h
    have hm : ∀ a ∈ s.approvals, (fun a => a.id == rid) a = false := by
      intro a ha
      simpa using h a ha
    constructor <;>
      simp [handle_approve, handle_reject, updateFirst_no_match _ _ _ hm]
  · intro pre x post hs hpre hx
    have hpre' : ∀ y ∈ pre, (fun a => a.id == rid) y = false := by
      intro y hy
      simpa using hpre y hy
    have hx' : (fun a => a.id == rid) x = true := by simpa using hx
    constructor <;>
      simp [handle_approve, handle_reject, hs,
        updateFirst_first_match _ _ pre x post hpre' hx']

/-- Witness for C3: an unmatched id leaves a concrete one-approval store
untouched. -/
theorem approve_reject_unmatched_noop_witness :
    (handle_approve
      ⟨[], [], [⟨"req_1", "U1", "Budget Approval", "d", "pending", "c", none, none, none, none⟩]⟩
      "req_nope" "U2" "C" "111" "i" "f").1 =
      ⟨[], [], [⟨"req_1", "U1", "Budget Approval", "d", "pending", "c", none, none, none, none⟩]⟩ :=
  ((approve_reject_unmatched_noop
    ⟨[], [], [⟨"req_1", "U1", "Budget Approval", "d", "pending", "c", none, none, none, none⟩]⟩
    "req_nope" "U2" "C" "111" "i" "f").1 (by decide)).1


/-- C10: when the carried id matches, the approve handler writes only the
status/approved_by/approved_at fields of the first matching Approval (and
the reject handler only status/rejected_by/rejected_at): the record's other
fields, every other Approval (before and after the match), and the tasks and
workflows collections are left exactly unchanged. -/
theorem approve_reject_frame (s : Store) (rid u ch mts iso fmt : String)
    (pre : List Approval) (x : Approval) (post : List Approval)
    (hs : s.approvals = pre ++ x :: post)
    (hpre : ∀ y ∈ pre, y.id ≠ rid) (hx : x.id = rid) :
    (handle_approve s rid u ch mts iso fmt).1 =
      { s with approvals := pre ++
          ({ x with status := "approved", approved_by := some u,
                    approved_at := some iso } : Approval) :: post }
  ∧ (handle_reject s rid u ch mts iso fmt).1 =
      { s with approvals := pre ++
          ({ x with status := "rejected", rejected_by := some u,
                    rejected_at := some iso } : Approval) :: post }
  ∧ (handle_approve s rid u ch mts iso fmt).1.tasks = s.tasks
  ∧ (handle_approve s rid u ch mts iso fmt).1.workflows = s.workflows
  ∧ (handle_reject s rid u ch mts iso fmt).1.tasks = s.tasks
  ∧ (handle_reject s rid u ch mts iso fmt).1.workflows = s.workflows
  ∧ (({ x with status := "approved", approved_by := some u, approved_at := some iso } : Approval).id = x.id
      ∧ ({ x with status := "approved", approved_by := some u, approved_at := some iso } : Approval).requester = x.requester
      ∧ ({ x with status := "approved", approved_by := some u, approved_at := some iso } : Approval).type = x.type
      ∧ ({ x with status := "approved", approved_by := some u, approved_at := some iso } : Approval).details = x.details
      ∧ ({ x with status := "approved", approved_by := some u, approved_at := some iso } : Approval).created_at = x.created_at
      ∧ ({ x with status := "approved", approved_by := some u, approved_at := some iso } : Approval).rejected_by = x.rejected_by
      ∧ ({ x with status := "approved", approved_by := some u, approved_at := some iso } : Approval).rejected_at = x.rejected_at)
  ∧ (({ x with status := "rejected", rejected_by := some u, rejected_at := some iso } : Approval).id = x.id
      ∧ ({ x with status := "rejected", rejected_by := some u, rejected_at := some iso } : Approval).requester = x.requester
      ∧ ({ x with status := "rejected", rejected_by := some u, rejected_at := some iso } : Approval).type = x.type
      ∧ ({ x with status := "rejected", rejected_by := some u, rejected_at := some iso } : Approval).details = x.details
      ∧ ({ x with status := "rejected", rejected_by := some u, rejected_at := some iso } : Approval).created_at = x.created_at
      ∧ ({ x with status := "rejected", rejected_by := some u, rejected_at := some iso } : Approval).approved_by = x.approved_by
      ∧ ({ x with status := "rejected", rejected_by := some u, rejected_at := some iso } : Approval).approved_at = x.approved_at) := by
  have hpre' : ∀ y ∈ pre, (fun a => a.id == rid) y = false := by
    intro y hy
    simpa using hpre y hy
  have hx' : (fun a => a.id == rid) x = true := by simpa using hx
  refine ⟨?_, ?_, rfl, rfl, rfl, rfl,
    ⟨rfl, rfl, rfl, rfl, rfl, rfl, rfl⟩, ⟨rfl, rfl, rfl, rfl, rfl, rfl, rfl⟩⟩
  · simp [handle_approve, hs, updateFirst_first_match _ _ pre x post hpre' hx']
  · simp [handle_reject, hs, updateFirst_first_match _ _ pre x post hpre' hx']

/-- Witness for C10: concrete one-approval store, matching id. -/
theorem approve_reject_frame_witness :
    (handle_approve
      ⟨[], [], [⟨"req_1", "U1", "Budget Approval", "d", "pending", "c", none, none, none, none⟩]⟩
      "req_1" "U2" "C" "111" "i" "f").1 =
      ⟨[], [],
       [⟨"req_1", "U1", "Budget Approval", "d", "approved", "c",
         some "U2", some "i", none, none⟩]⟩ := by
  have h := (approve_reject_frame
    ⟨[], [], [⟨"req_1", "U1", "Budget Approval", "d", "pending", "c", none, none, none, none⟩]⟩
    "req_1" "U2" "C" "111" "i" "f" []
    ⟨"req_1", "U1", "Budget Approval", "d", "pending", "c", none, none, none, none⟩ []
    rfl (by simp) rfl).1
  simpa using h


/-! ## Approve/reject sequences on one approval id -/

/-- The stored status of the first approval matching `rid`. -/
def statusOf (s : Store) (rid : String) : Option String :=
  (s.approvals.find? (fun a => a.id == rid)).map Approval.status

/-- How many times the status changed along an observed trace. -/
def statusChangeCount : List String → Nat
  | a :: b :: rest => (if a = b then 0 else 1) + statusChangeCount (b :: rest)
  | _ => 0

/-- The conjunct "mutated exactly once from pending to approved or from pending to
rejected", read on an observed status trace: exactly one change, starting at
pending and ending at approved or rejected. -/
def MutatedOnceFromPending (trace : List String) : Prop :=
  statusChangeCount trace = 1 ∧ trace.head? = some "pending"
  ∧ (trace.getLast? = some "approved" ∨ trace.getLast? = some "rejected")

/-- A store holding one pending approval, on which both handlers then fire. -/
def raceStore0 : Store :=
  ⟨[], [], [⟨"req_1", "U1", "Budget Approval", "d", "pending", "c0",
             none, none, none, none⟩]⟩

/-- State of `raceStore0` after the approve handler fires for "req_1". -/
def raceStore1 : Store := (handle_approve raceStore0 "req_1" "U2" "C" "111" "i1" "f1").1

/-- State of `raceStore1` after the reject handler also fires for "req_1". -/
def raceStore2 : Store := (handle_reject raceStore1 "req_1" "U3" "C" "111" "i2" "f2").1

/-- C2 counterexample: when the approve handler and then the reject handler
both run for the same pending approval, the record's observed status trace is
pending → approved → rejected: it is mutated twice (the second mutation going
from "approved", not from "pending"), so the claim's "mutated exactly once
from pending to approved or from pending to rejected" conjunct is false in
the very sequences the claim quantifies over. -/
theorem approve_then_reject_double_mutation :
    statusOf raceStore0 "req_1" = some "pending"
  ∧ statusOf raceStore1 "req_1" = some "approved"
  ∧ statusOf raceStore2 "req_1" = some "rejected"
  ∧ statusChangeCount ["pending", "approved", "rejected"] = 2
  ∧ ¬ MutatedOnceFromPending ["pending", "approved", "rejected"] := by
  refine ⟨rfl, rfl, rfl, rfl, ?_⟩
  intro h
  exact absurd h.1 (by decide)

/-- C2 (amended): when both handlers fire for the id of the first matching
Approval (in either order), neither raises an error, the final status equals
the value written by whichever handler ran last, and the record carries no
duplicate status field (it is one record whose single status field is
overwritten) — but the record is mutated twice, once per handler: first
pending→approved (or pending→rejected), then on to the other status. -/
theorem approve_reject_last_writer_wins (s : Store) (rid : String)
    (u1 u2 ch1 ch2 mts1 mts2 i1 f1 i2 f2 : String)
    (pre : List Approval) (x : Approval) (post : List Approval)
    (hs : s.approvals = pre ++ x :: post)
    (hpre : ∀ y ∈ pre, y.id ≠ rid) (hx : x.id = rid) :
    (handle_reject (handle_approve s rid u1 ch1 mts1 i1 f1).1 rid u2 ch2 mts2 i2 f2).1.approvals = pre ++ ({ x with status := "rejected", approved_by := some u1, approved_at := some i1, rejected_by := some u2, rejected_at := some i2 } : Approval) :: post
  ∧ (handle_approve (handle_reject s rid u1 ch1 mts1 i1 f1).1 rid u2 ch2 mts2 i2 f2).1.approvals = pre ++ ({ x with status := "approved", rejected_by := some u1, rejected_at := some i1, approved_by := some u2, approved_at := some i2 } : Approval) :: post := by
  have hpre' : ∀ y ∈ pre, (fun a => a.id == rid) y = false := by
    intro y hy
    simpa using hpre y hy
  have hx' : (fun a => a.id == rid) x = true := by simpa using hx
  have hxa : (fun a => (a : Approval).id == rid)
      ({ x with status := "approved", approved_by := some u1,
                approved_at := some i1 } : Approval) = true := hx'
  have hxr : (fun a => (a : Approval).id == rid)
      ({ x with status := "rejected", rejected_by := some u1,
                rejected_at := some i1 } : Approval) = true := hx'
  constructor
  · have h1 : (handle_approve s rid u1 ch1 mts1 i1 f1).1.approvals =
        pre ++ ({ x with status := "approved", approved_by := some u1,
                         approved_at := some i1 } : Approval) :: post := by
      simp [handle_approve, hs, updateFirst_first_match _ _ pre x post hpre' hx']
    simp [handle_reject, h1, updateFirst_first_match _ _ pre _ post hpre' hxa]
  · have h1 : (handle_reject s rid u1 ch1 mts1 i1 f1).1.approvals =
        pre ++ ({ x with status := "rejected", rejected_by := some u1,
                         rejected_at := some i1 } : Approval) :: post := by
      simp [handle_reject, hs, updateFirst_first_match _ _ pre x post hpre' hx']
    simp [handle_approve, h1, updateFirst_first_match _ _ pre _ post hpre' hxr]

/-- Witness for the amended C2 at the concrete race store: approve then
reject ends with status "rejected" — the last writer. -/
theorem approve_reject_last_writer_wins_witness :
    raceStore2.approvals =
      [⟨"req_1", "U1", "Budget Approval", "d", "rejected", "c0",
        some "U2", some "i1", some "U3", some "i2"⟩] := by
  have h := (approve_reject_last_writer_wins raceStore0 "req_1"
    "U2" "U3" "C" "C" "111" "111" "i1" "f1" "i2" "f2" []
    ⟨"req_1", "U1", "Budget Approval", "d", "pending", "c0", none, none, none, none⟩ []
    rfl (by simp) rfl).1
  simpa [raceStore2, raceStore1, raceStore0] using h


/-! ## Hourly pending-task reminder -/

/-- C7: the hourly reminder sends nothing exactly when no task is pending;
otherwise it sends exactly one reminder whose enumerated list holds only the
first 5 pending tasks (rendered as title and priority bullets, in store
order: the first `min 5 n` entries of the pending list), while the section
text states the true total number `n` of pending tasks even when `n > 5`. -/
theorem check_pending_tasks_reminder (s : Store) (channel_id : String) :
    (check_pending_tasks s channel_id = none ↔
      s.tasks.filter (fun t => t.status == "pending") = [])
  ∧ (s.tasks.filter (fun t => t.status == "pending") ≠ [] →
      check_pending_tasks s channel_id = some (.postBlocks channel_id
        [create_header_block "⏰ Pending Tasks Reminder",
         create_section_block ("You have "
           ++ toString (s.tasks.filter (fun t => t.status == "pending")).length
           ++ " pending task(s):\n\n"
           ++ String.intercalate "\n"
             (((s.tasks.filter (fun t => t.status == "pending")).map taskReminderLine).take 5)),
         create_actions_block [create_button_block "View All Tasks" "view_tasks"]]
        "Pending tasks reminder")
    ∧ (((s.tasks.filter (fun t => t.status == "pending")).map taskReminderLine).take 5).length
        = min 5 (s.tasks.filter (fun t => t.status == "pending")).length) := by
  constructor
  · constructor
    · intro h
      by_cases he : (s.tasks.filter (fun t => t.status == "pending")).isEmpty
      · exact List.isEmpty_iff.mp he
      · simp [check_pending_tasks, he] at h
    · intro h
      simp [check_pending_tasks, h]
  · intro h
    have he : (s.tasks.filter (fun t => t.status == "pending")).isEmpty = false := by
      simpa [List.isEmpty_iff] using h
    constructor
    · simp [check_pending_tasks, he, List.map_take]
    · simp [List.length_take]

/-- The stock pending task used by the C7 witness store. -/
def mkPendingTask (n : String) : Task :=
  { id := n, title := n, description := "", priority := "high", due_date := "",
    created_by := "U", created_at := "t", status := "pending" }

/-- A store with 7 pending tasks: the reminder must say 7 but list 5. -/
def sevenPendingTasks : Store :=
  ⟨[mkPendingTask "t1", mkPendingTask "t2", mkPendingTask "t3", mkPendingTask "t4",
    mkPendingTask "t5", mkPendingTask "t6", mkPendingTask "t7"], [], []⟩

/-- Witness for C7: with 7 pending tasks the text reads "You have 7 pending
task(s)" while the bullet list enumerates only the first 5. -/
theorem check_pending_tasks_reminder_witness :
    check_pending_tasks sevenPendingTasks "C" = some (.postBlocks "C"
      [create_header_block "⏰ Pending Tasks Reminder",
       create_section_block ("You have 7 pending task(s):\n\n• t1 (Priority: high)\n• t2 (Priority: high)\n• t3 (Priority: high)\n• t4 (Priority: high)\n• t5 (Priority: high)"),
       create_actions_block [create_button_block "View All Tasks" "view_tasks"]]
      "Pending tasks reminder") := by
  have h := ((check_pending_tasks_reminder sevenPendingTasks "C").2 (by decide)).1
  exact h.trans (by rfl)


/-! ## Message event dispatch -/

/-- C8: `handle_message` ignores bot-authored messages; otherwise the
lowercased text is matched by substring in the fixed precedence order
hello/hi → workflow → task → approval.  The greeting is static; the workflow
branch posts `send_workflow_example` (the fixed example steps); the task
branch posts the task-creation prompt; the approval branch appends exactly
one new pending Approval record and posts the approval message; text matching
none of the keywords causes no outbound call and no store change. -/
theorem handle_message_dispatch (s : Store) (e : MessageEvent) (ts iso : String) :
    (e.subtype = some "bot_message" → handle_message s e ts iso = (s, []))
  ∧ (e.subtype ≠ some "bot_message" →
      ((containsSub (strLower (e.text.getD "")) "hello" = true
          ∨ containsSub (strLower (e.text.getD "")) "hi" = true) →
        handle_message s e ts iso =
          (s, [.postText e.channel
            "Hello! 👋 Use `/automation` to get started with automations."]))
    ∧ (containsSub (strLower (e.text.getD "")) "hello" = false →
        containsSub (strLower (e.text.getD "")) "hi" = false →
        containsSub (strLower (e.text.getD "")) "workflow" = true →
        handle_message s e ts iso = (s, [send_workflow_example e.channel]))
    ∧ (containsSub (strLower (e.text.getD "")) "hello" = false →
        containsSub (strLower (e.text.getD "")) "hi" = false →
        containsSub (strLower (e.text.getD "")) "workflow" = false →
        containsSub (strLower (e.text.getD "")) "task" = true →
        handle_message s e ts iso = (s, [send_task_example e.channel]))
    ∧ (containsSub (strLower (e.text.getD "")) "hello" = false →
        containsSub (strLower (e.text.getD "")) "hi" = false →
        containsSub (strLower (e.text.getD "")) "workflow" = false →
        containsSub (strLower (e.text.getD "")) "task" = false →
        containsSub (strLower (e.text.getD "")) "approval" = true →
          (handle_message s e ts iso).1.tasks = s.tasks
        ∧ (handle_message s e ts iso).1.workflows = s.workflows
        ∧ (handle_message s e ts iso).1.approvals = s.approvals ++
            [⟨"req_" ++ ts, e.user, "Budget Approval",
              "Requesting approval for Q4 marketing budget", "pending", iso,
              none, none, none, none⟩]
        ∧ (handle_message s e ts iso).2 =
            [.postBlocks e.channel
              (create_approval_message ("<@" ++ e.user ++ ">") "Budget Approval"
                "Requesting approval for Q4 marketing budget" ("req_" ++ ts))
              "Approval request"])
    ∧ (containsSub (strLower (e.text.getD "")) "hello" = false →
        containsSub (strLower (e.text.getD "")) "hi" = false →
        containsSub (strLower (e.text.getD "")) "workflow" = false →
        containsSub (strLower (e.text.getD "")) "task" = false →
        containsSub (strLower (e.text.getD "")) "approval" = false →
        handle_message s e ts iso = (s, []))) := by
  constructor
  · intro h
    simp [handle_message, h]
  · intro hbot
    have hbot' : (e.subtype == some "bot_message") = false := by
      simpa using hbot
    refine ⟨?_, ?_, ?_, ?_, ?_⟩
    · rintro (h | h) <;> simp [handle_message, hbot', h]
    · intro h1 h2 h3
      simp [handle_message, hbot', h1, h2, h3]
    · intro h1 h2 h3 h4
      simp [handle_message, hbot', h1, h2, h3, h4]
    · intro h1 h2 h3 h4 h5
      refine ⟨?_, ?_, ?_, ?_⟩ <;>
        simp [handle_message, hbot', h1, h2, h3, h4, h5, send_approval_example]
    · intro h1 h2 h3 h4 h5
      simp [handle_message, hbot', h1, h2, h3, h4, h5]

/-- Witness for C8 at a concrete approval-keyword message: one pending
Approval is appended. -/
theorem handle_message_dispatch_witness :
    (handle_message ⟨[], [], []⟩
      ⟨none, some "Approval please", "C", "U"⟩ "111" "iso").1.approvals =
      [⟨"req_111", "U", "Budget Approval",
        "Requesting approval for Q4 marketing budget", "pending", "iso",
        none, none, none, none⟩] := by
  have h := ((handle_message_dispatch ⟨[], [], []⟩
    ⟨none, some "Approval please", "C", "U"⟩ "111" "iso").2
    (by decide)).2.2.2.1 (by decide) (by decide) (by decide) (by decide) (by decide)
  simpa using h.2.2.1


/-! ## Store evolution invariant -/

/-- The store changed only by appending new entities at the end of its
collections (possibly none): no existing entity is removed, reordered or
modified. -/
def AppendOnlyStep (s s2 : Store) : Prop :=
  ∃ ts ws aps, s2.tasks = s.tasks ++ ts ∧ s2.workflows = s.workflows ++ ws
    ∧ s2.approvals = s.approvals ++ aps

/-- The store changed only by an in-place approval status transition: tasks
and workflows untouched, approvals same length and order, and every approval
keeps its id, requester, type, details and created_at (only the
status/approved/rejected fields may differ). -/
def StatusOnlyUpdate (s s2 : Store) : Prop :=
  s2.tasks = s.tasks ∧ s2.workflows = s.workflows
  ∧ s2.approvals.length = s.approvals.length
  ∧ ∀ (i : Nat) (a a2 : Approval),
      s.approvals[i]? = some a → s2.approvals[i]? = some a2 →
      a2.id = a.id ∧ a2.requester = a.requester ∧ a2.type = a.type
      ∧ a2.details = a.details ∧ a2.created_at = a.created_at

lemma appendOnlyStep_refl (s : Store) : AppendOnlyStep s s :=
  ⟨[], [], [], by simp, by simp, by simp⟩

/-- C9: every store-writing handler either appends new entities to the end
of the collections (message dispatch, task-modal submission, approval
creation) or performs only the approval status transition (approve/reject):
no entity is ever removed or reordered.  The remaining handlers and the two
scheduled jobs (`check_pending_tasks`, `send_daily_report`) are embedded as
read-only functions of the store — their types carry no store output because
their source bodies never write `automation_store` — so they leave every
collection unchanged by construction. -/
theorem store_mutations_append_only :
    (∀ s (e : MessageEvent) ts iso, AppendOnlyStep s (handle_message s e ts iso).1)
  ∧ (∀ s (vs : TaskModalState) u ts iso,
      AppendOnlyStep s (handle_task_modal_submit s vs u ts iso).1)
  ∧ (∀ s ch u ts iso, AppendOnlyStep s (send_approval_example s ch u ts iso).1)
  ∧ (∀ s rid u ch mts iso fmt, StatusOnlyUpdate s (handle_approve s rid u ch mts iso fmt).1)
  ∧ (∀ s rid u ch mts iso fmt, StatusOnlyUpdate s (handle_reject s rid u ch mts iso fmt).1) := by
  refine ⟨?_, ?_, ?_, ?_, ?_⟩
  · intro s e ts iso
    simp only [handle_message]
    split
    · exact appendOnlyStep_refl s
    · split
      · exact appendOnlyStep_refl s
      · split
        · exact appendOnlyStep_refl s
        · split
          · exact appendOnlyStep_refl s
          · split
            · exact ⟨[], [],
                [⟨"req_" ++ ts, e.user, "Budget Approval",
                  "Requesting approval for Q4 marketing budget", "pending", iso,
                  none, none, none, none⟩],
                by simp [send_approval_example], by simp [send_approval_example],
                by simp [send_approval_example]⟩
            · exact appendOnlyStep_refl s
  · intro s vs u ts iso
    exact ⟨[⟨"task_" ++ ts, vs.title, vs.description.getD "", vs.priority,
             vs.due_date.getD "", u, iso, "pending"⟩], [], [],
           by simp [handle_task_modal_submit], by simp [handle_task_modal_submit],
           by simp [handle_task_modal_submit]⟩
  · intro s ch u ts iso
    exact ⟨[], [],
           [⟨"req_" ++ ts, u, "Budget Approval",
             "Requesting approval for Q4 marketing budget", "pending", iso,
             none, none, none, none⟩],
           by simp [send_approval_example], by simp [send_approval_example],
           by simp [send_approval_example]⟩
  · intro s rid u ch mts iso fmt
    refine ⟨rfl, rfl, ?_, ?_⟩
    · simp [handle_approve, updateFirst_length]
    · intro i a a2 ha ha2
      have h := updateFirst_getElem (fun x => x.id == rid)
        (fun a => { a with status := "approved", approved_by := some u,
                           approved_at := some iso })
        s.approvals i a a2 ha (by simpa [handle_approve] using ha2)
      rcases h with h | h <;> subst h <;> exact ⟨rfl, rfl, rfl, rfl, rfl⟩
  · intro s rid u ch mts iso fmt
    refine ⟨rfl, rfl, ?_, ?_⟩
    · simp [handle_reject, updateFirst_length]
    · intro i a a2 ha ha2
      have h := updateFirst_getElem (fun x => x.id == rid)
        (fun a => { a with status := "rejected", rejected_by := some u,
                           rejected_at := some iso })
        s.approvals i a a2 ha (by simpa [handle_reject] using ha2)
      rcases h with h | h <;> subst h <;> exact ⟨rfl, rfl, rfl, rfl, rfl⟩

/-- Witness for C9: the task-modal handler's step from the empty store is an
append-only step. -/
theorem store_mutations_append_only_witness :
    AppendOnlyStep ⟨[], [], []⟩
      (handle_task_modal_submit ⟨[], [], []⟩
        { title := "T", priority := "high" } "U" "1" "i").1 :=
  store_mutations_append_only.2.1 ⟨[], [], []⟩ { title := "T", priority := "high" } "U" "1" "i"

end SlackApp
